import Mathlib

/-!
Verification development for the rest-server repository.

The definitions below are a shallow embedding of the routing / data-source
core of the repository:

* `src/rest-server-nextjs/src/path.mjs` — `escapeRegExp`, `validPath`,
  `parsePath`, `createPath`, `createPathParamValueFunction`;
* `src/rest-server-nextjs/src/regexp_tools.mjs` — `hasFlag`, `validFlag`,
  `addFlag`;
* `src/unnamed/part_001` (the datasource module) — `compareParameterTypes`,
  `compareSegment`, `compareSegmentLists`, the `DataSource` default methods,
  `Service.getServicePaths` / `Service.findServicePath`, and the
  `MemoryDataSource` constructor.

JavaScript conventions used throughout the embedding:

* a thrown error / rejected promise is modelled as `Except.error`;
* JS `undefined` appearing where a string is expected is modelled as
  `Option.none`;
* machine details that matter (string truthiness, property access on a
  function object, the comma operator) are modelled explicitly and flagged
  with comments at the place they occur.
-/

namespace RestServer

/-- The JS error values produced by the embedded code.  `syntaxError` carries
the message and the message of its `cause` option (empty when no cause is
given); `notFound` models the raw rejection object `\x7berror: 404\x7d`;
`jsError` models a plain `Error`. -/
inductive JsError where
  | referenceError (name : String)
  | typeError (msg : String)
  | rangeError (msg : String)
  | syntaxError (msg : String) (cause : String)
  | unsupportedError (msg : String)
  | notFound (status : Nat)
  | jsError (msg : String)
deriving Repr, DecidableEq

/-! ### path.mjs: escapeRegExp -/

/-- The character class of `escapeRegExp` (path.mjs line 21):
`[.\[\(\)\+?*\-\\/\]]`, i.e. the eleven characters escaped by the function. -/
def escapedCharClass : List Char :=
  ['.', '[', '(', ')', '+', '?', '*', '-', '\\', '/', ']']

/-- `escapeRegExp` (path.mjs lines 20-22): replaces every occurrence of a
character of `escapedCharClass` by a backslash followed by that character. -/
def escapeRegExp (literal : String) : String :=
  String.mk (literal.toList.foldr
    (fun c acc => if escapedCharClass.contains c then '\\' :: c :: acc else c :: acc) [])

/-! ### regexp_tools.mjs: flags -/

/-- `allFlags` (regexp_tools.mjs): the valid regular-expression flags. -/
def allFlags : String := "dgimsuvy"

/-- `hasFlag` (regexp_tools.mjs lines 118-127): a single-character flag is
sought with `indexOf`; a flag string of any other length requires every one of
its characters to occur (so the empty flag string trivially passes). -/
def hasFlag (flags flag : String) : Bool :=
  match flag.toList with
  | [c] => flags.toList.contains c
  | cs => cs.all (fun seeked => flags.toList.contains seeked)

/-- `validFlag` (regexp_tools.mjs lines 104-108). -/
def validFlag (flag : String) : Bool :=
  flag.length == 1 && hasFlag allFlags flag

/-- One step of the `reduce` inside `addFlag` (regexp_tools.mjs lines
231-253): the `u` / `v` cases check compatibility against the original
`flags`; every valid flag is appended to the accumulator unless already
present. -/
def addFlagStep (origFlags result : String) (flag : Char) : Except JsError String :=
  if !validFlag (String.mk [flag]) then
    Except.error (JsError.rangeError ("Invalid flag " ++ String.mk [flag]))
  else if flag == 'u' then
    if hasFlag origFlags "v" then
      Except.error (JsError.syntaxError "Unicode sets is not compatible with unicode" "")
    else pure (if hasFlag result (String.mk [flag]) then result else result ++ String.mk [flag])
  else if flag == 'v' then
    if hasFlag origFlags "u" then
      Except.error (JsError.syntaxError "Unicode is not compatible with Unicode sets" "")
    else pure (if hasFlag result (String.mk [flag]) then result else result ++ String.mk [flag])
  else pure (if hasFlag result (String.mk [flag]) then result else result ++ String.mk [flag])

/-- The fold of `addFlag` over the added flag characters, with the original
`flags` as the initial accumulator (the `reduce(..., flags)` call). -/
def addFlagFold : List Char → String → String → Except JsError String
  | [], _orig, result => pure result
  | flag :: rest, orig, result => do
    let r ← addFlagStep orig result flag
    addFlagFold rest orig r

/-- `addFlag` (regexp_tools.mjs lines 217-256).  The `typeof` guards hold for
all string arguments and are omitted. -/
def addFlag (flags addedFlags : String) : Except JsError String :=
  if flags.length != 0 && !(flags.toList.all (fun c => validFlag (String.mk [c]))) then
    Except.error (JsError.rangeError "Invalid flags")
  else if addedFlags.length == 0 then pure flags
  else addFlagFold addedFlags.toList flags flags

/-! ### Path segments as JS values

`createPath` and the segment comparator receive JS values: literal strings,
parameter-descriptor objects `\x7btype, paramName, parser, toString\x7d`, arrays
(mixed segments), and — through out-of-bounds element accesses — `undefined`.
The parameter descriptors of this repository always carry a parser function
(all call sites and tests supply one), so the embedding records only the
`type` and `paramName` fields; the parsers used by the claims are the
identity on strings. -/

inductive JsSeg where
  | str (s : String)
  | param (type paramName : String)
  | arr (parts : List JsSeg)
  | undef

/-- `isLiteralSegment` (part_001 lines 329-331): string check. -/
def isLiteralSegment : JsSeg → Bool
  | .str _ => true
  | _ => false

/-- `isParameterSegment` (part_001 lines 339-346): an object that is not an
array whose `type` and `paramName` are truthy; for string-valued fields
truthiness is non-emptiness. -/
def isParameterSegment : JsSeg → Bool
  | .param t n => t != "" && n != ""
  | _ => false

mutual

/-- `isMixedSegment` (part_001 lines 354-364): an array all of whose elements
are literal, parameter or mixed segments. -/
def isMixedSegment : JsSeg → Bool
  | .arr parts => isValidSegmentList parts
  | _ => false

/-- The `Array.prototype.every` call inside `isMixedSegment`. -/
def isValidSegmentList : List JsSeg → Bool
  | [] => true
  | s :: rest =>
    (isLiteralSegment s || isParameterSegment s || isMixedSegment s) && isValidSegmentList rest

end

/-- The string conversion `"" + segment` used on literal segments. -/
def jsToStr : JsSeg → String
  | .str s => s
  | _ => ""

/-! ### path.mjs: createPath -/

/-- The value stored into `result.parameters[name]` by `createPath` is the
bare closure returned by `createPathParamValueFunction` (path.mjs lines
473-477 and 504-507).  A function object has no `type` property, so the later
access `result.parameters[name].type` yields JS `undefined`.  This constant
is that property read. -/
def storedParamTypeProp : Option String := none

/-- The property read `segmentPart.type` on a mixed-segment part: parameter
descriptors expose their `type` string; arrays and `undefined` have no such
property (`undefined`); this access is only reached for non-string parts. -/
def jsTypeProp : JsSeg → Option String
  | .param t _ => some t
  | _ => none

/-- The property read `segmentPart.paramName` on a non-string mixed-segment
part.  For an array or `undefined` part the property is `undefined`, which JS
coerces to the string "undefined" both in the template literal
`(?<$\x7bparamName\x7d>` and as the object key of `result.parameters`. -/
def jsPartParamName : JsSeg → String
  | .param _ n => n
  | .str s => s
  | _ => "undefined"

/-- The `segment.map(...)` loop of the mixed-segment branch of `createPath`
(path.mjs lines 447-483): literal parts are escaped; a repeated parameter
name whose stored `type` differs from the part throws; a repeated name with
equal `type` emits a back-reference; a new name registers the parameter and
emits a named capturing group. -/
def createPathMixed (index : Nat) : List JsSeg → List String → String →
    Except JsError (List String × String)
  | [], params, acc => pure (params, acc)
  | part :: restParts, params, acc =>
    match part with
    | .str s => createPathMixed index restParts params (acc ++ escapeRegExp s)
    | other =>
      let n := jsPartParamName other
      if params.contains n then
        if storedParamTypeProp != jsTypeProp other then
          Except.error (JsError.syntaxError "Invalid path"
            ("Duplicate parameter " ++ n ++ " at index " ++ toString index))
        else
          createPathMixed index restParts params (acc ++ "\\k<" ++ n ++ ">")
      else
        createPathMixed index restParts (params ++ [n])
          (acc ++ "(?<" ++ n ++ ">[^\\/]+?)")

/-- One iteration of the `segments.forEach` of `createPath` (path.mjs lines
442-522), after the separator `\/` has been appended: strings are escaped
literals; arrays are mixed segments; parameter descriptors with a truthy
`type` follow the single-parameter branch (the duplicate check against the
stored closure, whose `type` property is `undefined`); anything else throws. -/
def createPathSeg (index : Nat) (params : List String) (acc : String) :
    JsSeg → Except JsError (List String × String)
  | .str s => pure (params, acc ++ escapeRegExp s)
  | .arr parts => createPathMixed index parts params acc
  | .param t n =>
    if t != "" then
      if params.contains n then
        if storedParamTypeProp != some t then
          Except.error (JsError.syntaxError "Invalid path"
            ("Duplicate parameter " ++ n ++ " at index " ++ toString index))
        else pure (params, acc ++ "\\k<" ++ n ++ ">")
      else pure (params ++ [n], acc ++ "(?<" ++ n ++ ">[^\\/]+?)")
    else
      Except.error (JsError.syntaxError "Invalid segments"
        ("Invalid segment at " ++ toString index))
  | .undef =>
    -- `typeof undefined` is neither "string" nor an Object: path.mjs 517-521
    Except.error (JsError.syntaxError "Invalid path"
      ("Invalid segment at index" ++ toString index))

/-- The `segments.forEach` loop of `createPath`: every segment is preceded by
the separator source `\/`. -/
def createPathLoop : List JsSeg → Nat → List String → String →
    Except JsError (List String × String)
  | [], _index, params, acc => pure (params, acc)
  | seg :: rest, index, params, acc => do
    let r ← createPathSeg index params (acc ++ "\\/") seg
    createPathLoop rest (index + 1) r.1 r.2

/-- The compiled path object returned by `createPath` (path.mjs lines
434-534): the original segments, the regular-expression source string built by
the loop, the flags of the compiled `RegExp`, and the keys of
`result.parameters` in insertion order (the stored values are the
`createPathParamValueFunction` closures, represented by their parameter
name). -/
structure ServicePath where
  segments : List JsSeg
  regexSource : String
  flags : String
  parameters : List String

/-- `createPath` (path.mjs lines 434-534): `let flags = "y"` and the final
`new RegExp(regExpString, addFlag(flags, "y"))`. -/
def createPath (segments : List JsSeg) : Except JsError ServicePath := do
  let r ← createPathLoop segments 0 [] ""
  let flags ← addFlag "y" "y"
  pure { segments := segments, regexSource := r.2, flags := flags, parameters := r.1 }

/-! ### Semantics of the emitted regular-expression dialect

`createPath` only ever emits three kinds of fragment: escaped or plain
literal characters, the lazy named group `(?<name>[^\/]+?)`, and the named
back-reference `\k<name>`.  The tokenizer below parses exactly this dialect
back out of the source string, and the matcher gives it the ECMAScript
semantics: a sticky (`y`-flagged) `exec` with `lastIndex` 0 attempts a match
at offset 0 only; the lazy quantifier `+?` consumes as few characters
(at least one, all different from `/`) as allow the rest of the pattern to
match; a back-reference matches the exact text captured by its group. -/

inductive RTok where
  | lit (c : Char)
  | group (name : String)
  | backref (name : String)
deriving Repr, DecidableEq

/-- Tokenizer for the emitted dialect.  The fuel argument is decremented once
per token while at least one character is consumed per token, so fuel equal
to the length of the input never runs out. -/
def regexToksFuel : Nat → List Char → Option (List RTok)
  | _, [] => some []
  | 0, _ :: _ => none
  | fuel + 1, cs =>
    match cs with
    | [] => some []
    | '\\' :: 'k' :: '<' :: rest =>
      let name := rest.takeWhile (fun c => c != '>')
      match rest.drop name.length with
      | '>' :: rest2 => (regexToksFuel fuel rest2).map (fun ts => RTok.backref (String.mk name) :: ts)
      | _ => none
    | '\\' :: c :: rest => (regexToksFuel fuel rest).map (fun ts => RTok.lit c :: ts)
    | '(' :: '?' :: '<' :: rest =>
      let name := rest.takeWhile (fun c => c != '>')
      match rest.drop name.length with
      | '>' :: '[' :: '^' :: '\\' :: '/' :: ']' :: '+' :: '?' :: ')' :: rest2 =>
        (regexToksFuel fuel rest2).map (fun ts => RTok.group (String.mk name) :: ts)
      | _ => none
    | c :: rest => (regexToksFuel fuel rest).map (fun ts => RTok.lit c :: ts)

/-- Tokenize a regular-expression source string of the emitted dialect. -/
def regexToks (src : String) : Option (List RTok) :=
  regexToksFuel src.toList.length src.toList

/-- Backtracking matcher for the token list, from the current position, with
the environment of captured groups.  Returns the rest of the input after the
match together with the final environment.  The group case realises the lazy
`+?`: candidate capture lengths are tried shortest first and the first one
whose continuation succeeds wins; a capture may not contain `/` and has at
least one character. -/
def matchToks : List RTok → List Char → List (String × String) →
    Option (List Char × List (String × String))
  | [], input, env => some (input, env)
  | .lit c :: ts, input, env =>
    match input with
    | [] => none
    | c2 :: rest => if c2 == c then matchToks ts rest env else none
  | .backref n :: ts, input, env =>
    match env.lookup n with
    | some s =>
      if s.toList.isPrefixOf input then matchToks ts (input.drop s.toList.length) env
      else none
    | none =>
      -- a back-reference to a group that has not participated matches ""
      matchToks ts input env
  | .group n :: ts, input, env =>
    (List.range input.length).findSome? (fun j =>
      let k := j + 1
      let pre := input.take k
      if pre.length == k && pre.all (fun c => c != '/') then
        matchToks ts (input.drop k) (env ++ [(n, String.mk pre)])
      else none)

/-- The result of a successful `RegExp.prototype.exec`: `matched` is
`match[0]`, `index` is `match.index`, `groups` the named captures. -/
structure MatchResult where
  matched : String
  index : Nat
  groups : List (String × String)
deriving Repr, DecidableEq

/-- `exec` of a sticky (`y`-flagged) regular expression of the emitted
dialect against an input, with `lastIndex` 0: the match must start at offset
0, so exactly one match attempt is made. -/
def execSticky (src input : String) : Option MatchResult :=
  match regexToks src with
  | none => none
  | some toks =>
    match matchToks toks input.toList [] with
    | none => none
    | some r =>
      some { matched := String.mk (input.toList.take (input.toList.length - r.1.length)),
             index := 0,
             groups := r.2 }

/-- `createPathParamValueFunction` (path.mjs lines 372-382): the returned
closure reads the named group from the match result and applies the parser;
it returns `undefined` when there is no match, no groups object, or the group
value is falsy (in particular the empty string). -/
def createPathParamValueFunction (paramName : String) (parseFn : String → String) :
    Option MatchResult → Option String
  | none => none
  | some m =>
    match m.groups.lookup paramName with
    | some s => if s != "" then some (parseFn s) else none
    | none => none

/-! ### path.mjs: validPath and parsePath -/

/-- `validPath` (path.mjs lines 64-71).  For a string argument the body
evaluates `pathRegularExpression.test(path)`, but the identifier
`pathRegularExpression` is declared nowhere in path.mjs and is not among its
imports (the module defines `pathRegex` instead), so the evaluation throws
`ReferenceError: pathRegularExpression is not defined` on every call with a
string argument. -/
def validPath (_path : String) : Except JsError Bool :=
  Except.error (JsError.referenceError "pathRegularExpression")

/-- The body of `parsePath` behind the `validPath` guard (path.mjs lines
542-687).  It is unreachable — `validPath` always throws — and is itself
broken: for any segment with content, the first loop iteration executes
`segmentRegexp = segmentRegexp.concat(...)` (lines 562-564) re-assigning the
`const segmentRegexp` declared on line 559, a `TypeError` in strict mode; and
the function has no `return` statement. -/
def parsePathBody (_pathString : String) : Except JsError ServicePath :=
  Except.error (JsError.typeError "Assignment to constant variable")

/-- `parsePath` (path.mjs lines 541-691): `if (validPath(pathString))` runs
first, so the `ReferenceError` thrown by `validPath` propagates out of every
call; the `else` branch would throw `TypeError("Invalid path")`. -/
def parsePath (pathString : String) : Except JsError ServicePath :=
  match validPath pathString with
  | Except.error e => Except.error e
  | Except.ok true => parsePathBody pathString
  | Except.ok false => Except.error (JsError.typeError "Invalid path")

/-! ### part_001: the segment comparator -/

/-- Result of a JS comparison: a number or `NaN`.  No code path of the
comparator returns `undefined`. -/
inductive CmpRes where
  | num (i : Int)
  | nan
deriving Repr, DecidableEq

/-- `defaultComparison` (part_001 lines 373-379) at string arguments:
`a < b ? -1 : a > b ? 1 : 0`; the relational operators on two strings never
throw, so the `catch` branch is dead.  JS compares strings lexicographically
by code unit, which for the ASCII strings of this development coincides with
the ordering of Lean strings. -/
def defaultComparisonStr (a b : String) : CmpRes :=
  if a < b then CmpRes.num (-1) else if b < a then CmpRes.num 1 else CmpRes.num 0

/-- `defaultComparison` (part_001 lines 373-379) at number arguments. -/
def defaultComparisonInt (a b : Int) : CmpRes :=
  if a < b then CmpRes.num (-1) else if b < a then CmpRes.num 1 else CmpRes.num 0

/-- The `order` array of `compareParameterTypes` (part_001 line 388). -/
def paramOrder : List String := ["parameter", "catchall", "optional"]

/-- `Array.prototype.indexOf`: -1 when the element is absent; looking up
`undefined` (modelled `none`) in a list of strings also yields -1. -/
def jsIndexOf (l : List String) : Option String → Int
  | none => -1
  | some s =>
    match l.findIdx? (fun x => x == s) with
    | some i => (i : Int)
    | none => -1

/-- `compareParameterTypes` (part_001 lines 387-396).  The argument type is
`Option String` because `compareSegment` passes the `type` property of an
arbitrary JS value, which may be `undefined`. -/
def compareParameterTypes (compared comparee : Option String) : CmpRes :=
  let comparedKey := jsIndexOf paramOrder compared
  let compareeKey := jsIndexOf paramOrder comparee
  if 0 ≤ comparedKey ∧ 0 ≤ compareeKey then defaultComparisonInt comparedKey compareeKey
  else CmpRes.nan

/-- The property access `segment.type` as performed by `compareSegment`:
on `undefined` it throws a `TypeError`; on a parameter object it yields the
`type` string; on a string primitive or an array it yields `undefined`. -/
def jsTypeAccess : JsSeg → Except JsError (Option String)
  | .undef => Except.error (JsError.typeError "Cannot read properties of undefined")
  | .param t _ => pure (some t)
  | _ => pure none

/-- JS truthiness of a comparison result: a nonzero number is truthy, `0` and
`NaN` are falsy.  The loop guard of `compareSegmentLists` is
`result === undefined || result`; `compareSegment` never returns `undefined`,
so the guard reduces to this truthiness test. -/
def cmpTruthy : CmpRes → Bool
  | .num i => i != 0
  | .nan => false

mutual

/-- `compareSegment` (part_001 lines 404-428), written branch for branch
after its nested conditional expressions.  Unreachable `match` arms (an
`isMixedSegment` value is always an array) return `NaN`. -/
def compareSegment (compared comparee : JsSeg) : Except JsError CmpRes :=
  if isLiteralSegment compared then
    pure (if isLiteralSegment comparee then
        defaultComparisonStr (jsToStr compared) (jsToStr comparee)
      else CmpRes.num (-1))
  else if isParameterSegment compared then
    if isLiteralSegment comparee then pure (CmpRes.num 1)
    else if isMixedSegment comparee then
      match comparee with
      | .arr parts =>
        match parts with
        | [] =>
          -- comparee.length is 0 (falsy); compared.length, the length of a
          -- parameter object, is undefined and undefined === 0 is false, so
          -- the code recurses on comparee[0], which is undefined
          compareSegment compared JsSeg.undef
        | p :: _ =>
          if isLiteralSegment p then pure (CmpRes.num 1)
          else compareSegment compared p
      | _ => pure CmpRes.nan
    else do
      let t1 ← jsTypeAccess compared
      let t2 ← jsTypeAccess comparee
      pure (compareParameterTypes t1 t2)
  else if isMixedSegment compared then
    match compared with
    | .arr parts =>
      if isMixedSegment comparee then
        match comparee with
        | .arr parts2 => compareSegmentLists parts parts2
        | _ => pure CmpRes.nan
      else
        match parts with
        | [] => pure (CmpRes.num 1)
        | p :: _ => compareSegment p comparee
    | _ => pure CmpRes.nan
  else pure CmpRes.nan
termination_by sizeOf compared + sizeOf comparee

/-- `compareSegmentLists` (part_001 lines 436-456).  Two slips of the source
are retained faithfully: the guard `(validCompared, validComparee)` uses the
comma operator, so only the validity of `comparee` is tested; and both
`compareeCount` (line 440) and `comparedCount` (line 441) read
`compared.length`, so the loop bound is `compared.length` and the final
tie-break compares `compared.length` with itself. -/
def compareSegmentLists (compared comparee : List JsSeg) : Except JsError CmpRes :=
  let validComparee := isValidSegmentList comparee
  if validComparee then do
    let compareeCount : Int := compared.length
    let comparedCount : Int := compared.length
    let r ← cmpLoop compared comparee
    match r with
    | some result => pure result
    | none => pure (defaultComparisonInt compareeCount comparedCount)
  else pure CmpRes.nan
termination_by sizeOf compared + sizeOf comparee + 1

/-- The `for` loop of `compareSegmentLists`: the bound is the length of
`compared`, so when `comparee` is shorter the element `comparee[i]` is
`undefined`; a truthy comparison result is returned, `0` and `NaN` let the
loop continue. -/
def cmpLoop (compared comparee : List JsSeg) : Except JsError (Option CmpRes) :=
  match compared, comparee with
  | [], _ => pure none
  | c :: cs, [] => do
    let result ← compareSegment c JsSeg.undef
    if cmpTruthy result then pure (some result) else cmpLoop cs []
  | c :: cs, d :: ds => do
    let result ← compareSegment c d
    if cmpTruthy result then pure (some result) else cmpLoop cs ds
termination_by sizeOf compared + sizeOf comparee

end

/-! ### part_001: the service registry -/

/-- One insertion step of a stable comparator sort.  `Array.prototype.sort`
with a comparator places `a` before `b` when the comparator yields a negative
number and keeps the original (insertion) order on ties; a `NaN` comparator
result is treated like `0`. -/
def insertSorted (x : List JsSeg) :
    List (List JsSeg) → Except JsError (List (List JsSeg))
  | [] => pure [x]
  | y :: ys => do
    let r ← compareSegmentLists x y
    match r with
    | CmpRes.num i =>
      if 0 < i then do
        let rest ← insertSorted x ys
        pure (y :: rest)
      else pure (x :: y :: ys)
    | CmpRes.nan => pure (x :: y :: ys)

/-- The sort of `getServicePaths` (part_001 lines 658-664): the registered
segment lists ordered by `compareSegmentLists`, modelled as a stable
insertion sort (the ECMAScript sort is stable, and the comparator is
consistent on the inputs of the claims). -/
def sortRegistered : List (List JsSeg) → Except JsError (List (List JsSeg))
  | [] => pure []
  | x :: xs => do
    let rest ← sortRegistered xs
    insertSorted x rest

/-- The map of `getServicePaths` (part_001 lines 665-667): each sorted entry
is compiled by `createPath([...this.#basePath.segments, ...path.segments])` —
note the call passes a single array to the variadic `createPath`, so the
combined segments arrive as one element of its rest parameter, i.e. as a
single mixed segment. -/
def createAllPaths (base : List JsSeg) :
    List (List JsSeg) → Except JsError (List ServicePath)
  | [] => pure []
  | segs :: rest => do
    let p ← createPath [JsSeg.arr (base ++ segs)]
    let ps ← createAllPaths base rest
    pure (p :: ps)

/-- The state of a `Service` (part_001 lines 595-724) that matters to path
resolution: the base path segments (empty for the default constructor) and
the segment lists of the registered paths, in registration order (the keys of
the `#dataSources` map). -/
structure Service where
  basePathSegments : List JsSeg
  registered : List (List JsSeg)

/-- `Service.getServicePaths` (part_001 lines 657-668). -/
def getServicePaths (svc : Service) : Except JsError (List ServicePath) := do
  let sorted ← sortRegistered svc.registered
  createAllPaths svc.basePathSegments sorted

/-- `Service.findServicePath` (part_001 lines 686-691): the first compiled
path whose regular expression — compiled with flag `y`, hence sticky with
`lastIndex` 0 — matches with `match.index === 0`. -/
def findServicePath (svc : Service) (path : String) :
    Except JsError (Option ServicePath) := do
  let paths ← getServicePaths svc
  pure (paths.find? (fun tested =>
    match execSticky tested.regexSource path with
    | some m => m.index == 0
    | none => false))

/-! ### part_001: the data source defaults -/

/-- The per-key body of `createDefaultRetrieveAll` (part_001 lines 265-291):
`Promise.all` over `retrieve(key)` for the keys in order, pairing
`[keys[i], values[i]]`; the first failing key rejects the whole operation
with `Error("Could not retrieve value of " + key)` wrapping the original
failure as its cause (the cause is not modelled beyond the message). -/
def retrieveAllLoop (retrieve : String → Except JsError String) :
    List String → Except JsError (List (String × String))
  | [] => pure []
  | key :: rest =>
    match retrieve key with
    | Except.error _e =>
      Except.error (JsError.jsError ("Could not retrieve value of " ++ key))
    | Except.ok value => do
      let restPairs ← retrieveAllLoop retrieve rest
      pure ((key, value) :: restPairs)

/-- `createDefaultRetrieveAll` (part_001 lines 265-291) applied to the
resolved key list of `keys()` and the `retrieve` capability, as installed by
the `DataSource` constructor (line 533-534) when no `retrieveAll` is
supplied. -/
def createDefaultRetrieveAll (keys : List String)
    (retrieve : String → Except JsError String) :
    Except JsError (List (String × String)) :=
  retrieveAllLoop retrieve keys

/-- The default `filterByKey` synthesized by the `DataSource` constructor
(part_001 lines 543-549) for a source supplying only `retrieve` and `keys`:
`this.retrieveAll()` is the default above, then
`entries.filter(([key]) => filter(key)).map(([_key, value]) => value)`. -/
def filterByKeyDefault (keys : List String)
    (retrieve : String → Except JsError String) (filter : String → Bool) :
    Except JsError (List String) :=
  match createDefaultRetrieveAll keys retrieve with
  | Except.error e => Except.error e
  | Except.ok entries =>
    pure ((entries.filter (fun p => filter p.1)).map (fun p => p.2))

/-- The default `keyOfValue` synthesized by the `DataSource` constructor
(part_001 lines 563-588), applied to the resolved `this.retrieveAll()`
entries: `entries.findIndex((identified) => identified[0] === value)` — note
the predicate compares `identified[0]`, the KEY of the pair, with the
argument — then returns `entries[resultIndex][0]` on success and rejects with
the object `\x7berror: 404\x7d` otherwise. -/
def keyOfValueDefault (entries : List (String × String)) (value : String) :
    Except JsError String :=
  match entries.findIdx? (fun identified => identified.1 == value) with
  | some resultIndex =>
    match entries.get? resultIndex with
    | some identified => pure identified.1
    | none => Except.error (JsError.typeError "index out of range")
  | none => Except.error (JsError.notFound 404)

/-! ### part_001: MemoryDataSource -/

/-- The construction parameters of `MemoryDataSource` that the claims refer
to (part_001 lines 732-740): whether an identifier generator is injected,
whether the source is read only, and the initial entries. -/
structure EntriesParams where
  readOnly : Bool := false
  hasIdGenerator : Bool := false
  entries : List (String × String) := []

/-- The state a successfully constructed memory data source would own. -/
structure MemoryDataSourceState where
  content : List (String × String)

/-- The `MemoryDataSource` constructor (part_001 lines 766-929).  Its first
executable statement is `const content = Map();` (line 771) — the `Map`
constructor invoked without `new`, which per ECMA-262 throws
`TypeError: Constructor Map requires new`.  No later statement of the
constructor (the retrieve/update/create/remove closures, the `super` call,
the entry initialisation) is ever reached, for any parameters. -/
def memoryDataSourceConstructor (_parameters : EntriesParams) :
    Except JsError MemoryDataSourceState :=
  Except.error (JsError.typeError "Constructor Map requires new")

/-- Specification-side rank of the parameter kinds, following the ordering
`parameter < catchall < optional` stated by the specification. -/
def kindRank : String → Int
  | "catchall" => 1
  | "optional" => 2
  | _ => 0

/-! ## Theorems -/

/-- Unfolding lemma: `pure` of the `Except` monad is `Except.ok`. -/
theorem exceptPure_eq_ok {α : Type} (a : α) :
    (pure a : Except JsError α) = Except.ok a := rfl

/-- Unfolding lemma: binding a success value of the `Except` monad applies
the continuation. -/
theorem exceptBind_ok {α β : Type} (a : α) (f : α → Except JsError β) :
    (Except.ok a : Except JsError α) >>= f = f a := rfl

/-- Unfolding lemma: binding an error of the `Except` monad propagates it. -/
theorem exceptBind_error {α β : Type} (e : JsError) (f : α → Except JsError β) :
    (Except.error e : Except JsError α) >>= f = Except.error e := rfl

/-- Unfolding lemma for `Except.toOption` at a success value. -/
theorem exceptToOption_ok {α : Type} (a : α) :
    (Except.ok a : Except JsError α).toOption = some a := rfl

/-- Unfolding lemma for `Except.toOption` at an error value. -/
theorem exceptToOption_error {α : Type} (e : JsError) :
    (Except.error e : Except JsError α).toOption = (none : Option α) := rfl

/-- Claim C1: for every literal-only path template string, `parsePath` of the
rendered path returns a `ServicePath` whose compiled matcher accepts exactly
the rendered string.  The code cannot do this for any input: `validPath`
reads the undeclared identifier `pathRegularExpression`, so `parsePath`
throws a `ReferenceError` at the rendered literal path `/test` (and at every
other string) instead of returning a `ServicePath`. -/
theorem claim_C1_parsePath_reference_error :
    parsePath "/test" = Except.error (JsError.referenceError "pathRegularExpression") := rfl

/-- Claim C2: a second occurrence of a parameter name with the same declared
type should compile to a back-reference, and the path equivalent to
`/test/[eventId]/generate/[eventId]` should match
`/test/rest/generate/rest`.  Instead `createPath` throws on the second
occurrence: the stored parameter entry is the bare value closure, whose
`type` property is `undefined`, so the equal-type test
`result.parameters[name].type !== segment.type` is true even for equal
declared types and the duplicate branch raises
`SyntaxError("Invalid path", cause: Duplicate parameter eventId at index 3)`. -/
theorem claim_C2_duplicate_param_throws :
    createPath [JsSeg.str "test", JsSeg.param "parameter" "eventId",
        JsSeg.str "generate", JsSeg.param "parameter" "eventId"] =
      Except.error (JsError.syntaxError "Invalid path"
        "Duplicate parameter eventId at index 3") := rfl

/-- Claim C3: the template `/test/[param]` matched against `/test/rest`
should extract `param == "rest"`.  The compiled source is
`\/test\/(?<param>[^\/]+?)` — a lazy group with nothing after it and no
boundary lookahead — so the sticky match consumes one character and the
extracted value is `"r"`, not `"rest"`. -/
theorem claim_C3_param_extraction_truncated :
    (createPath [JsSeg.str "test", JsSeg.param "parameter" "param"]).map
        (fun sp => (sp.regexSource, sp.flags)) =
      Except.ok ("\\/test\\/(?<param>[^\\/]+?)", "y") ∧
    createPathParamValueFunction "param" (fun s => s)
        (execSticky "\\/test\\/(?<param>[^\\/]+?)" "/test/rest") = some "r" ∧
    ("r" : String) ≠ "rest" := ⟨rfl, rfl, by decide⟩

/-- Claim C4: a compiled matcher should succeed only when the matched region
ends at a `/` boundary or at the end of the string.  The matcher of the
literal path `test` is the source `\/test` with no boundary lookahead: run
against `/testXYZ` it succeeds, the matched region is `/test`, and the
character following the matched region is `X` — neither a separator nor the
end of the input. -/
theorem claim_C4_matcher_accepts_mid_segment :
    (createPath [JsSeg.str "test"]).map (fun sp => (sp.regexSource, sp.flags)) =
      Except.ok ("\\/test", "y") ∧
    (execSticky "\\/test" "/testXYZ").map (fun m => (m.matched, m.index)) =
      some ("/test", 0) ∧
    "/testXYZ".toList.get? "/test".length = some 'X' := ⟨rfl, rfl, rfl⟩

/-- Claim C5: with both `/users/[id]` and `/users/admin` registered,
resolving `/users/admin` should select the literal route.  Instead
`findServicePath` finds nothing: `getServicePaths` hands the combined segment
array to the variadic `createPath` as a single argument, so each route is
compiled as one mixed segment — sources `\/usersadmin` and
`\/users(?<id>[^\/]+?)` — and neither matches `/users/admin`. -/
theorem claim_C5_literal_route_not_found :
    findServicePath
        { basePathSegments := [],
          registered := [[JsSeg.str "users", JsSeg.param "parameter" "id"],
            [JsSeg.str "users", JsSeg.str "admin"]] }
        "/users/admin" = Except.ok none := by
  have hsort : sortRegistered
      [[JsSeg.str "users", JsSeg.param "parameter" "id"],
        [JsSeg.str "users", JsSeg.str "admin"]] =
      Except.ok [[JsSeg.str "users", JsSeg.str "admin"],
        [JsSeg.str "users", JsSeg.param "parameter" "id"]] := by
    simp [sortRegistered, insertSorted, compareSegmentLists, cmpLoop, compareSegment,
      isLiteralSegment, isParameterSegment, isMixedSegment, isValidSegmentList, jsToStr,
      defaultComparisonStr, defaultComparisonInt, cmpTruthy, jsTypeAccess,
      compareParameterTypes, jsIndexOf, paramOrder]
    rfl
  simp only [findServicePath, getServicePaths]
  rw [hsort]
  rfl

/-- Claim C6: when two valid segment lists tie element-wise on all compared
positions, the longer list should sort strictly first.  With
`compared = ["a"]` and `comparee = ["a", "b"]` all compared positions tie,
but the result is `0`, not a positive number: both `compareeCount` and
`comparedCount` read `compared.length`, so the final tie-break compares
`compared.length` with itself. -/
theorem claim_C6_longer_list_not_preferred :
    compareSegmentLists [JsSeg.str "a"] [JsSeg.str "a", JsSeg.str "b"] =
      Except.ok (CmpRes.num 0) := by
  simp [compareSegmentLists, cmpLoop, compareSegment, isLiteralSegment,
    isParameterSegment, isMixedSegment, isValidSegmentList, jsToStr,
    defaultComparisonStr, defaultComparisonInt, cmpTruthy]
  rfl

/-- Counterexample to claim C7: the claim requires a literal segment to sort
after any non-literal segment in the reversed comparison, so
`compareSegment` of the mixed segment `["a"]` against the literal `"a"`
would have to be `1`; it is `0`, because a mixed segment compared with a
literal recurses into its first element and `"a"` ties with `"a"`. -/
theorem claim_C7_counterexample :
    compareSegment (JsSeg.arr [JsSeg.str "a"]) (JsSeg.str "a") =
      Except.ok (CmpRes.num 0) ∧
    (Except.ok (CmpRes.num 0) : Except JsError CmpRes) ≠ Except.ok (CmpRes.num 1) := by
  constructor
  · simp [compareSegment, isLiteralSegment, isParameterSegment, isMixedSegment,
      isValidSegmentList, jsToStr, defaultComparisonStr]
    rfl
  · intro h
    simp at h

/-- Claim C7 (amended): a literal segment sorts strictly before any
non-literal segment in the forward comparison; a parameter segment (truthy
type and name) sorts strictly after a literal; and two parameter segments
are ordered by the kind rank `parameter < catchall < optional`.  (The
original claim also required the literal to sort after every non-literal in
the reversed comparison; that fails for mixed segments, which recurse into
their first element — see the counterexample.) -/
theorem claim_C7_amended_ordering :
    (∀ (s : String) (comparee : JsSeg), isLiteralSegment comparee = false →
      compareSegment (JsSeg.str s) comparee = Except.ok (CmpRes.num (-1))) ∧
    (∀ (t n s : String), t ≠ "" → n ≠ "" →
      compareSegment (JsSeg.param t n) (JsSeg.str s) = Except.ok (CmpRes.num 1)) ∧
    (∀ (t1 n1 t2 n2 : String), t1 ∈ paramOrder → t2 ∈ paramOrder → n1 ≠ "" →
      compareSegment (JsSeg.param t1 n1) (JsSeg.param t2 n2) =
        Except.ok (defaultComparisonInt (kindRank t1) (kindRank t2))) := by
  refine ⟨?_, ?_, ?_⟩
  · intro s comparee hc
    rw [compareSegment.eq_def, hc]
    simp [isLiteralSegment]
    rfl
  · intro t n s ht hn
    simp [compareSegment, isLiteralSegment, isParameterSegment, ht, hn]
    rfl
  · intro t1 n1 t2 n2 h1 h2 hn
    simp only [paramOrder, List.mem_cons, List.not_mem_nil, or_false] at h1 h2
    rcases h1 with rfl | rfl | rfl <;> rcases h2 with rfl | rfl | rfl <;>
      (simp [compareSegment, isLiteralSegment, isParameterSegment, isMixedSegment,
        isValidSegmentList, jsTypeAccess, compareParameterTypes, jsIndexOf, paramOrder,
        kindRank, defaultComparisonInt, hn]
       rfl)

/-- Witness for the amended claim C7, at concrete segments. -/
theorem claim_C7_amended_witness :
    compareSegment (JsSeg.str "users") (JsSeg.param "parameter" "id") =
      Except.ok (CmpRes.num (-1)) ∧
    compareSegment (JsSeg.param "parameter" "id") (JsSeg.str "users") =
      Except.ok (CmpRes.num 1) ∧
    compareSegment (JsSeg.param "parameter" "a") (JsSeg.param "optional" "b") =
      Except.ok (defaultComparisonInt (kindRank "parameter") (kindRank "optional")) := by
  refine ⟨?_, ?_, ?_⟩
  · exact claim_C7_amended_ordering.1 "users" (JsSeg.param "parameter" "id") rfl
  · exact claim_C7_amended_ordering.2.1 "parameter" "id" "users" (by decide) (by decide)
  · exact claim_C7_amended_ordering.2.2 "parameter" "a" "optional" "b"
      (by decide) (by decide) (by decide)

/-- Claim C8: the synthesized `keyOfValue` should return the key of the first
pair whose VALUE equals the argument, and fail with the 404 marker when no
value matches.  The scan compares the argument with `identified[0]` — the
key — so for the single entry `("k1", "v1")` looking up the present value
`"v1"` rejects with the 404 object, while looking up the key `"k1"` succeeds
and returns the argument itself. -/
theorem claim_C8_key_of_value_scans_keys :
    keyOfValueDefault [("k1", "v1")] "v1" = Except.error (JsError.notFound 404) ∧
    keyOfValueDefault [("k1", "v1")] "k1" = Except.ok "k1" := ⟨rfl, rfl⟩

/-- Helper for claim C9: when every key retrieves successfully, the default
`retrieveAll` returns the key/value pairs in key order. -/
theorem retrieveAllLoop_ok (retrieve : String → Except JsError String)
    (keys : List String) (h : ∀ k, k ∈ keys → ∃ v, retrieve k = Except.ok v) :
    retrieveAllLoop retrieve keys =
      Except.ok (keys.filterMap
        (fun k => ((retrieve k).toOption).map (fun v => (k, v)))) := by
  induction keys with
  | nil => rfl
  | cons k ks ih =>
    obtain ⟨v, hv⟩ := h k (List.mem_cons_self k ks)
    have hks : ∀ x, x ∈ ks → ∃ v, retrieve x = Except.ok v :=
      fun x hx => h x (List.mem_cons_of_mem k hx)
    simp [retrieveAllLoop, hv, ih hks, List.filterMap_cons, exceptToOption_ok,
      exceptBind_ok, exceptPure_eq_ok]

/-- Helper for claim C9: filtering the successful pairs by key and keeping
the values equals filtering the keys and retrieving each one. -/
theorem filter_pairs_eq_filter_keys (retrieve : String → Except JsError String)
    (filter : String → Bool) (keys : List String)
    (h : ∀ k, k ∈ keys → ∃ v, retrieve k = Except.ok v) :
    ((keys.filterMap (fun k => ((retrieve k).toOption).map (fun v => (k, v)))).filter
        (fun p => filter p.1)).map (fun p => p.2) =
      (keys.filter filter).filterMap (fun k => (retrieve k).toOption) := by
  induction keys with
  | nil => rfl
  | cons k ks ih =>
    obtain ⟨v, hv⟩ := h k (List.mem_cons_self k ks)
    have hks : ∀ x, x ∈ ks → ∃ v, retrieve x = Except.ok v :=
      fun x hx => h x (List.mem_cons_of_mem k hx)
    by_cases hf : filter k = true <;>
      simp [List.filterMap_cons, List.filter_cons, hv, hf, ih hks, exceptToOption_ok]

/-- Claim C9: for a data source supplying only `retrieve` and `keys`, the
synthesized `filterByKey(predicate)` resolves to exactly the values obtained
by iterating `keys()` in order, retrieving each value, keeping the pairs
whose key satisfies the predicate, and returning the values in the original
key order — here under the hypothesis that every key retrieves
successfully. -/
theorem claim_C9_filter_by_key_default (keys : List String)
    (retrieve : String → Except JsError String) (filter : String → Bool)
    (h : ∀ k, k ∈ keys → ∃ v, retrieve k = Except.ok v) :
    filterByKeyDefault keys retrieve filter =
      Except.ok ((keys.filter filter).filterMap (fun k => (retrieve k).toOption)) := by
  unfold filterByKeyDefault createDefaultRetrieveAll
  rw [retrieveAllLoop_ok retrieve keys h]
  exact congrArg Except.ok (filter_pairs_eq_filter_keys retrieve filter keys h)

/-- Witness for claim C9, at a concrete three-key data source. -/
theorem claim_C9_witness :
    filterByKeyDefault ["a", "b", "c"] (fun k => Except.ok (k ++ "!"))
        (fun k => k != "b") = Except.ok ["a!", "c!"] := by
  have h := claim_C9_filter_by_key_default ["a", "b", "c"]
    (fun k => Except.ok (k ++ "!")) (fun k => k != "b")
    (by intro k _; exact ⟨k ++ "!", rfl⟩)
  simpa [exceptToOption_ok] using h

/-- Claim C10: a memory data source constructed without an identifier
generator should construct successfully and reject `create` with an
Unsupported condition.  Construction never succeeds at all: the first
statement of the constructor calls `Map()` without `new`, which throws a
`TypeError` for every parameter record — in particular for the record with
no identifier generator. -/
theorem claim_C10_memory_constructor_throws :
    memoryDataSourceConstructor {} =
      Except.error (JsError.typeError "Constructor Map requires new") := rfl

end RestServer
